import Mathlib

/-!
# Crescent Watch — verification of the visibility-computation engine

Shallow embedding of the core astronomy module of the Crescent Watch
repository (the TypeScript file providing `calcCrescentWidth`,
`yallopCriterion`, `odehCriterion`, `saaoCriterion`, `shaukatCriterion`,
`calculateVisibilityPoint`, `generateVisibilityGrid`,
`getSimulationTrajectory`, `findGeocentricConjunction` and
`findTopocentricConjunction`).

JavaScript numbers are modelled as real numbers `ℝ` (rationals `ℚ` for
timestamps, where only ordering and affine arithmetic matter).  The
Astronomy Engine library is external to the repository and is modelled as
an abstract Position Provider (a structure of oracle functions), exactly
as the specification's §6 treats it.  Exceptions do not arise in the
embedded fragment (no embedded operation throws), so the `try/catch`
wrappers of the source collapse to the direct result.
-/

namespace CrescentWatch

/-- `DEG2RAD = Math.PI / 180` from the source constants. -/
noncomputable def DEG2RAD : ℝ := Real.pi / 180

/-- `RAD2DEG = 180 / Math.PI` from the source constants. -/
noncomputable def RAD2DEG : ℝ := 180 / Real.pi

/-- `EARTH_RADIUS_KM = 6378.137` from the source constants. -/
def EARTH_RADIUS_KM : ℝ := 6378.137

/-- The four display colors of the source's union type
`'green' | 'yellow' | 'orange' | 'red'`. -/
inductive Color : Type
  | green | yellow | orange | red
  deriving DecidableEq, Repr

/-- Odeh zones `'A' | 'B' | 'C' | 'D'`. -/
inductive OdehZone : Type
  | A | B | C | D
  deriving DecidableEq, Repr

/-- Yallop classes `'A' | 'B' | 'C' | 'D' | 'E' | 'F'`. -/
inductive YallopClass : Type
  | A | B | C | D | E | F
  deriving DecidableEq, Repr

/-- The `visibility` field of `OdehResult`:
`'naked_eye' | 'optical_aid' | 'not_visible'`. -/
inductive OdehVisibility : Type
  | naked_eye | optical_aid | not_visible
  deriving DecidableEq, Repr

/-- The source interface `OdehResult { v; zone; visibility }`. -/
structure OdehResult : Type where
  v : ℝ
  zone : OdehZone
  visibility : OdehVisibility

/-- The source interface `YallopResult { q; cls; visibility }`
(`visibility` is a plain string in the source). -/
structure YallopResult : Type where
  q : ℝ
  cls : YallopClass
  visibility : String

/--
Source `calcCrescentWidth(arclDeg, moonAltDeg, distKm)`:
```
const sinPi = Math.min(EARTH_RADIUS_KM / distKm, 1.0);
const piRad = Math.asin(sinPi);
const hRad = moonAltDeg * DEG2RAD;
const sdRad = 0.27245 * piRad;
const sdPrimeRad = sdRad * (1.0 + Math.sin(hRad) * Math.sin(piRad));
const arclRad = arclDeg * DEG2RAD;
const wPrimeRad = sdPrimeRad * (1.0 - Math.cos(arclRad));
return wPrimeRad * RAD2DEG * 60.0;
```
-/
noncomputable def calcCrescentWidth (arclDeg moonAltDeg distKm : ℝ) : ℝ :=
  let sinPi := min (EARTH_RADIUS_KM / distKm) 1
  let piRad := Real.arcsin sinPi
  let hRad := moonAltDeg * DEG2RAD
  let sdRad := 0.27245 * piRad
  let sdPrimeRad := sdRad * (1 + Real.sin hRad * Real.sin piRad)
  let arclRad := arclDeg * DEG2RAD
  let wPrimeRad := sdPrimeRad * (1 - Real.cos arclRad)
  wPrimeRad * RAD2DEG * 60

/--
Source `yallopCriterion(arcl, arcv, wPrime)` (the first argument `arcl`
is accepted but unused by the source body):
`f = 11.8371 - 6.3226 w + 0.7319 w² - 0.1018 w³`, `q = (arcv - f)/10`,
then the strict descending ladder on `q`.
-/
noncomputable def yallopCriterion (arcl arcv wPrime : ℝ) : YallopResult :=
  let f := 11.8371 - 6.3226 * wPrime + 0.7319 * wPrime ^ 2 - 0.1018 * wPrime ^ 3
  let q := (arcv - f) / 10
  if q > 0.216 then ⟨q, .A, "naked_eye_easy"⟩
  else if q > -0.014 then ⟨q, .B, "naked_eye_perfect"⟩
  else if q > -0.160 then ⟨q, .C, "mixed_optical_helpful"⟩
  else if q > -0.232 then ⟨q, .D, "optical_required"⟩
  else if q > -0.293 then ⟨q, .E, "not_visible_telescope"⟩
  else ⟨q, .F, "not_visible"⟩

/--
Source `odehCriterion(arcv, wArcmin)`:
`curve = -0.1018 w³ + 0.7319 w² - 6.3226 w + 7.1651`, `v = arcv - curve`,
then the inclusive (`>=`) descending ladder on `v`.
-/
noncomputable def odehCriterion (arcv wArcmin : ℝ) : OdehResult :=
  let curve := -0.1018 * wArcmin ^ 3 + 0.7319 * wArcmin ^ 2
    - 6.3226 * wArcmin + 7.1651
  let v := arcv - curve
  if v ≥ 5.65 then ⟨v, .A, .naked_eye⟩
  else if v ≥ 2.0 then ⟨v, .B, .naked_eye⟩
  else if v ≥ -0.96 then ⟨v, .C, .optical_aid⟩
  else ⟨v, .D, .not_visible⟩

/-- Source `zoneToColor`. -/
def zoneToColor : OdehZone → Color
  | .A => .green
  | .B => .yellow
  | .C => .orange
  | .D => .red

/-- Source `yallopClassToColor`. -/
def yallopClassToColor : YallopClass → Color
  | .A => .green
  | .B => .green
  | .C => .yellow
  | .D => .orange
  | .E => .red
  | .F => .red

/-- The source union type `Criterion = 'odeh' | 'yallop' | 'saao' | 'shaukat'`. -/
inductive Criterion : Type
  | odeh | yallop | saao | shaukat
  deriving DecidableEq, Repr

/-- A zone/color pair, the anonymous return type of the source's
`saaoCriterion` and `shaukatCriterion`. -/
structure ZoneColor : Type where
  zone : OdehZone
  color : Color
  deriving DecidableEq, Repr

/--
Source `saaoCriterion(moonAlt, moonAge)`: the simplified altitude/age
threshold ladder (`moonAlt >= 10 && moonAge >= 24` for zone A, etc.).
-/
noncomputable def saaoCriterion (moonAlt moonAge : ℝ) : ZoneColor :=
  if moonAlt ≥ 10 ∧ moonAge ≥ 24 then ⟨.A, .green⟩
  else if moonAlt ≥ 6 ∧ moonAge ≥ 18 then ⟨.B, .yellow⟩
  else if moonAlt ≥ 3 ∧ moonAge ≥ 15 then ⟨.C, .orange⟩
  else ⟨.D, .red⟩

/--
Source `shaukatCriterion(elongation, moonAlt)`: the `elongation < 10`
red gate followed by the altitude/elongation ladder.
-/
noncomputable def shaukatCriterion (elongation moonAlt : ℝ) : ZoneColor :=
  if elongation < 10 then ⟨.D, .red⟩
  else if moonAlt ≥ 8 ∧ elongation ≥ 12 then ⟨.A, .green⟩
  else if moonAlt ≥ 5 ∧ elongation ≥ 10 then ⟨.B, .yellow⟩
  else if moonAlt ≥ 2 ∧ elongation ≥ 8 then ⟨.C, .orange⟩
  else ⟨.D, .red⟩

/-! ## Spec-side ladders (written from the specification's words, for the
refinement claims about the criteria evaluators) -/

/-- Spec §4.3 Odeh-style: zone/color ladder on `V` with inclusive `≥`
thresholds — "A if V≥5.65 (green); B if V≥2.0 (yellow); C if V≥-0.96
(orange); else D (red)". -/
noncomputable def odehZoneColorSpec (v : ℝ) : OdehZone × Color :=
  if v ≥ 5.65 then (.A, .green)
  else if v ≥ 2.0 then (.B, .yellow)
  else if v ≥ -0.96 then (.C, .orange)
  else (.D, .red)

/-- Spec §4.3 Yallop-style: class ladder on `q` with strict descending
thresholds — "A if q>0.216; else B if q>-0.014; else C if q>-0.160; else
D if q>-0.232; else E if q>-0.293; else F". -/
noncomputable def yallopClassSpec (q : ℝ) : YallopClass :=
  if q > 0.216 then .A
  else if q > -0.014 then .B
  else if q > -0.160 then .C
  else if q > -0.232 then .D
  else if q > -0.293 then .E
  else .F

/-- Spec §4.3 Yallop-style color buckets: "A,B→green; C→yellow;
D→orange; E,F→red". -/
def yallopColorSpec : YallopClass → Color
  | .A => .green
  | .B => .green
  | .C => .yellow
  | .D => .orange
  | .E => .red
  | .F => .red

/-- Favorability order on Yallop classes, A best (0) through F worst (5). -/
def yallopBadness : YallopClass → ℕ
  | .A => 0
  | .B => 1
  | .C => 2
  | .D => 3
  | .E => 4
  | .F => 5

/-- **C1** — `odehCriterion` computes `V = arcv - g(W)` with
`g(W) = -0.1018W³ + 0.7319W² - 6.3226W + 7.1651`, assigns zones by the
inclusive `≥` ladder of the spec (A at `V ≥ 5.65`, B at `V ≥ 2.0`, C at
`V ≥ -0.96`, else D), and `zoneToColor` maps A,B,C,D to
green,yellow,orange,red. -/
theorem odehCriterion_matches_spec (arcv w : ℝ) :
    (odehCriterion arcv w).v
        = arcv - (-0.1018 * w ^ 3 + 0.7319 * w ^ 2 - 6.3226 * w + 7.1651)
      ∧ ((odehCriterion arcv w).zone, zoneToColor (odehCriterion arcv w).zone)
        = odehZoneColorSpec
            (arcv - (-0.1018 * w ^ 3 + 0.7319 * w ^ 2 - 6.3226 * w + 7.1651)) := by
  unfold odehCriterion odehZoneColorSpec
  dsimp only
  generalize arcv - (-0.1018 * w ^ 3 + 0.7319 * w ^ 2 - 6.3226 * w + 7.1651) = x
  constructor
  · split_ifs <;> rfl
  · split_ifs <;> rfl

/-- **C2** — `yallopCriterion` computes
`q = (arcv - f(W))/10` with `f(W) = 11.8371 - 6.3226W + 0.7319W² - 0.1018W³`,
assigns classes by the strict descending ladder of the spec, and
`yallopClassToColor` realizes the spec's color buckets
(A,B→green; C→yellow; D→orange; E,F→red). -/
theorem yallopCriterion_matches_spec (arcl arcv w : ℝ) :
    (yallopCriterion arcl arcv w).q
        = (arcv - (11.8371 - 6.3226 * w + 0.7319 * w ^ 2 - 0.1018 * w ^ 3)) / 10
      ∧ (yallopCriterion arcl arcv w).cls
        = yallopClassSpec
            ((arcv - (11.8371 - 6.3226 * w + 0.7319 * w ^ 2 - 0.1018 * w ^ 3)) / 10)
      ∧ ∀ c : YallopClass, yallopClassToColor c = yallopColorSpec c := by
  refine ⟨?_, ?_, ?_⟩
  · unfold yallopCriterion
    dsimp only
    split_ifs <;> rfl
  · unfold yallopCriterion yallopClassSpec
    dsimp only
    generalize (arcv - (11.8371 - 6.3226 * w + 0.7319 * w ^ 2 - 0.1018 * w ^ 3)) / 10 = x
    split_ifs <;> rfl
  · intro c
    cases c <;> rfl

section
set_option maxHeartbeats 1000000

/-- **C8** — for a fixed width, the Yallop class is monotone in ARCV:
a smaller ARCV never yields a more favorable (smaller-badness) class. -/
theorem yallopCriterion_monotone_in_arcv
    (arcl w arcv₁ arcv₂ : ℝ) (h : arcv₁ ≤ arcv₂) :
    yallopBadness (yallopCriterion arcl arcv₂ w).cls
      ≤ yallopBadness (yallopCriterion arcl arcv₁ w).cls := by
  unfold yallopCriterion
  dsimp only
  split_ifs <;> first
    | (simp [yallopBadness]; done)
    | (exfalso; linarith)

end

/-- Witness for C8 at `arcl = 5`, `w = 0.3`, `arcv₁ = 1`, `arcv₂ = 2`. -/
theorem yallopCriterion_monotone_in_arcv_witness :
    (1 : ℝ) ≤ 2
      ∧ yallopBadness (yallopCriterion 5 2 0.3).cls
          ≤ yallopBadness (yallopCriterion 5 1 0.3).cls :=
  ⟨by norm_num, yallopCriterion_monotone_in_arcv 5 0.3 1 2 (by norm_num)⟩

/-! ## Crescent width (claim C4) -/

/-- Spec §4.2 crescent semi-width, written from the spec's words: `sinPi =
min(EarthRadiusKm / moonDistanceKm, 1)`, `piRad = asin(sinPi)`,
`sdRad = 0.27245 * piRad`,
`sdPrime = sdRad * (1 + sin(moonAltitudeRad) * sin(piRad))`, width in
radians `sdPrime * (1 - cos(elongationRad))`, converted to arcminutes by
`* 180/π * 60`. -/
noncomputable def crescentWidthSpec (elongationDeg moonAltDeg moonDistanceKm : ℝ) : ℝ :=
  let sinPi := min (EARTH_RADIUS_KM / moonDistanceKm) 1
  let piRad := Real.arcsin sinPi
  let sdRad := 0.27245 * piRad
  let sdPrime := sdRad * (1 + Real.sin (moonAltDeg * (Real.pi / 180)) * Real.sin piRad)
  sdPrime * (1 - Real.cos (elongationDeg * (Real.pi / 180))) * (180 / Real.pi) * 60

/-- **C4** — `calcCrescentWidth` equals the spec's reference formula; it is
nonnegative whenever `distKm > 0`; and it is exactly `0` at elongation `0`. -/
theorem calcCrescentWidth_correct (e h d : ℝ) :
    calcCrescentWidth e h d = crescentWidthSpec e h d
      ∧ (0 < d → 0 ≤ calcCrescentWidth e h d)
      ∧ calcCrescentWidth 0 h d = 0 := by
  refine ⟨?_, ?_, ?_⟩
  · unfold calcCrescentWidth crescentWidthSpec DEG2RAD RAD2DEG
    rfl
  · intro hd
    unfold calcCrescentWidth DEG2RAD RAD2DEG EARTH_RADIUS_KM
    dsimp only
    have hs0 : (0 : ℝ) ≤ min (6378.137 / d) 1 :=
      le_min (by positivity) zero_le_one
    have hs1 : min (6378.137 / d) 1 ≤ 1 := min_le_right _ _
    have hpi0 : (0 : ℝ) ≤ Real.arcsin (min (6378.137 / d) 1) :=
      Real.arcsin_nonneg.mpr hs0
    have hsin : Real.sin (Real.arcsin (min (6378.137 / d) 1))
        = min (6378.137 / d) 1 :=
      Real.sin_arcsin (by linarith) hs1
    have hmoon : -1 ≤ Real.sin (h * (Real.pi / 180)) :=
      Real.neg_one_le_sin _
    have hfac : (0 : ℝ)
        ≤ 1 + Real.sin (h * (Real.pi / 180))
            * Real.sin (Real.arcsin (min (6378.137 / d) 1)) := by
      rw [hsin]
      nlinarith
    have hcos : (0 : ℝ) ≤ 1 - Real.cos (e * (Real.pi / 180)) := by
      have := Real.cos_le_one (e * (Real.pi / 180))
      linarith
    have hconv : (0 : ℝ) ≤ 180 / Real.pi := by positivity
    have hsd : (0 : ℝ) ≤ 0.27245 * Real.arcsin (min (6378.137 / d) 1) := by
      positivity
    have h60 : (0 : ℝ) ≤ 60 := by norm_num
    exact mul_nonneg
      (mul_nonneg (mul_nonneg (mul_nonneg hsd hfac) hcos) hconv) h60
  · unfold calcCrescentWidth
    simp

/-- Witness for C4 at `e = 0`, `h = 0`, `d = 384400`. -/
theorem calcCrescentWidth_correct_witness :
    (0 : ℝ) < 384400
      ∧ 0 ≤ calcCrescentWidth 0 0 384400
      ∧ calcCrescentWidth 0 0 384400 = 0 :=
  ⟨by norm_num,
   (calcCrescentWidth_correct 0 0 384400).2.1 (by norm_num),
   (calcCrescentWidth_correct 0 0 384400).2.2⟩

/-! ## Position Provider and the single-point pipeline (claims C3, C10)

Instants are rationals (milliseconds since the epoch, the resolution of
the JavaScript `Date` the source uses).  The Astronomy Engine library and
the JavaScript runtime are external; following spec §6 they are modelled
as an abstract structure of oracle functions. -/

/-- An instant: milliseconds since the Unix epoch. -/
abbrev Instant : Type := ℚ

/-- Horizontal position of a body: `altitude` and `azimuth` in degrees
(the relevant fields of Astronomy Engine's `HorizontalCoordinates`). -/
structure SkyPos : Type where
  altitude : ℝ
  azimuth : ℝ

/-- The external Position Provider (Astronomy Engine plus the JS runtime's
`Date.UTC`), per spec §6.  `searchSunset lat lon t` stands for
`SearchRiseSet(Sun, observer, -1, t, 1)`; `searchMoonset` likewise for the
Moon; `sunHorizonAt`/`moonHorizonAt` for the `Equator`+`Horizon` queries of
an observer at `(lat, lon, 0)`; `elongationAt` for
`AngleBetween(GeoVector(Sun), GeoVector(Moon))` (geocentric, so a function
of the instant only); `moonGeoVector` for `GeoVector(Moon)` in AU;
`illuminationAt` for `Illumination(Moon).phase_fraction`;
`searchMoonPhase ph t limitDays` for `SearchMoonPhase(ph, t, limitDays)`;
`moonPhaseAt` for `MoonPhase`; `searchLongitudeDiffZero lat lon t1 t2` for
`Astronomy.Search(getTopocentricLongitudeDifference(lat, lon, ·), t1, t2)`;
and `dateUTC y m d h` for `Date.UTC(y, m, d, h, 0, 0)` (month 0-based, as
in JS). -/
structure PositionProvider : Type where
  dateUTC : ℤ → ℤ → ℤ → ℤ → Instant
  searchSunset : ℝ → ℝ → Instant → Option Instant
  searchMoonset : ℝ → ℝ → Instant → Option Instant
  sunHorizonAt : ℝ → ℝ → Instant → SkyPos
  moonHorizonAt : ℝ → ℝ → Instant → SkyPos
  elongationAt : Instant → ℝ
  moonGeoVector : Instant → ℝ × ℝ × ℝ
  illuminationAt : Instant → ℝ
  searchMoonPhase : ℝ → Instant → ℚ → Option Instant
  moonPhaseAt : Instant → ℝ
  searchLongitudeDiffZero : ℝ → ℝ → Instant → Instant → Option Instant

/-- JavaScript `Math.round`: round half toward `+∞`. -/
noncomputable def jsRound (x : ℝ) : ℤ := ⌊x + 1 / 2⌋

/-- Source `findSunset(lat, lon, year, month, day)`: approximate the time
zone as `round(lon/15)` hours, build local solar noon in UTC via
`Date.UTC(year, month - 1, day, 12 - tzOffsetHours, 0, 0)`, then search
one day forward for the next sunset. -/
noncomputable def findSunset (P : PositionProvider)
    (lat lon : ℝ) (year month day : ℤ) : Option Instant :=
  let tzOffsetHours := jsRound (lon / 15)
  let localNoonUTC := P.dateUTC year (month - 1) day (12 - tzOffsetHours)
  P.searchSunset lat lon localNoonUTC

/-- The source interface `MoonSunData`. -/
structure MoonSunData : Type where
  sunAlt : ℝ
  sunAz : ℝ
  moonAlt : ℝ
  moonAz : ℝ
  elongation : ℝ
  moonDistKm : ℝ
  illumination : ℝ

/-- Source `getMoonSunData(lat, lon, time)`: horizontal positions of both
bodies, geocentric elongation, moon distance
`|GeoVector(Moon)| * 149597870.7` km, and illumination fraction. -/
noncomputable def getMoonSunData (P : PositionProvider)
    (lat lon : ℝ) (time : Instant) : MoonSunData :=
  let sunHorizon := P.sunHorizonAt lat lon time
  let moonHorizon := P.moonHorizonAt lat lon time
  let moonGeo := P.moonGeoVector time
  let moonDistAU := Real.sqrt
    (moonGeo.1 * moonGeo.1 + moonGeo.2.1 * moonGeo.2.1 + moonGeo.2.2 * moonGeo.2.2)
  { sunAlt := sunHorizon.altitude
    sunAz := sunHorizon.azimuth
    moonAlt := moonHorizon.altitude
    moonAz := moonHorizon.azimuth
    elongation := P.elongationAt time
    moonDistKm := moonDistAU * 149597870.7
    illumination := P.illuminationAt time }

/-- The source interface `VisibilityPoint` (optional fields are `Option`,
absent ones `none`). -/
structure VisibilityPoint : Type where
  lat : ℝ
  lon : ℝ
  color : Color
  moonAlt : Option ℝ := none
  sunAlt : Option ℝ := none
  elongation : Option ℝ := none
  odehZone : Option OdehZone := none
  yallopClass : Option YallopClass := none

/-- Source `calculateVisibilityPoint(lat, lon, year, month, day, criterion)`.
No embedded operation throws, so the source's `catch` branch is dead and
the function never returns `null`; the no-sunset branch returns the bare
red point exactly as the source does. -/
noncomputable def calculateVisibilityPoint (P : PositionProvider)
    (lat lon : ℝ) (year month day : ℤ) (criterion : Criterion) : VisibilityPoint :=
  match findSunset P lat lon year month day with
  | none => { lat := lat, lon := lon, color := .red }
  | some sunset =>
    let data := getMoonSunData P lat lon sunset
    let arcl := data.elongation
    let arcv := data.moonAlt - data.sunAlt
    let wPrime := calcCrescentWidth arcl data.moonAlt data.moonDistKm
    let odeh := odehCriterion arcv wPrime
    let yallop := yallopCriterion arcl arcv wPrime
    let saao := saaoCriterion data.moonAlt 20
    let shaukat := shaukatCriterion arcl data.moonAlt
    if data.moonAlt < 0 then
      { lat := lat, lon := lon, color := .red
        moonAlt := some data.moonAlt, sunAlt := some data.sunAlt
        elongation := some arcl
        odehZone := some .D, yallopClass := some .F }
    else
      let color := match criterion with
        | .odeh => zoneToColor odeh.zone
        | .yallop => yallopClassToColor yallop.cls
        | .saao => saao.color
        | .shaukat => shaukat.color
      { lat := lat, lon := lon, color := color
        moonAlt := some data.moonAlt, sunAlt := some data.sunAlt
        elongation := some arcl
        odehZone := some odeh.zone, yallopClass := some yallop.cls }

/-- **C3** — whenever a sunset is found and the moon's altitude there is
negative, `calculateVisibilityPoint` returns the worst classification —
color red, Odeh zone D, Yallop class F — for every criterion selector,
ignoring what the criterion evaluators would have returned. -/
theorem calculateVisibilityPoint_moon_below_horizon
    (P : PositionProvider) (lat lon : ℝ) (year month day : ℤ)
    (criterion : Criterion) (t : Instant)
    (hs : findSunset P lat lon year month day = some t)
    (hneg : (getMoonSunData P lat lon t).moonAlt < 0) :
    calculateVisibilityPoint P lat lon year month day criterion
      = { lat := lat, lon := lon, color := .red
          moonAlt := some (getMoonSunData P lat lon t).moonAlt
          sunAlt := some (getMoonSunData P lat lon t).sunAlt
          elongation := some (getMoonSunData P lat lon t).elongation
          odehZone := some .D, yallopClass := some .F } := by
  unfold calculateVisibilityPoint
  rw [hs]
  dsimp only
  rw [if_pos hneg]

/-- A concrete Position Provider whose moon altitude at the (existing)
sunset is `-2` degrees. -/
noncomputable def providerMoonBelow : PositionProvider where
  dateUTC := fun _ _ _ _ => 0
  searchSunset := fun _ _ _ => some 0
  searchMoonset := fun _ _ _ => none
  sunHorizonAt := fun _ _ _ => ⟨-1, 280⟩
  moonHorizonAt := fun _ _ _ => ⟨-2, 280⟩
  elongationAt := fun _ => 8
  moonGeoVector := fun _ => (0.00257, 0, 0)
  illuminationAt := fun _ => 0.01
  searchMoonPhase := fun _ _ _ => some 0
  moonPhaseAt := fun _ => 0
  searchLongitudeDiffZero := fun _ _ _ _ => none

/-- Witness for C3 with `providerMoonBelow` at `(0, 0)`, 2025-01-01,
criterion `yallop`. -/
theorem calculateVisibilityPoint_moon_below_horizon_witness :
    findSunset providerMoonBelow 0 0 2025 1 1 = some 0
      ∧ (getMoonSunData providerMoonBelow 0 0 0).moonAlt < 0
      ∧ calculateVisibilityPoint providerMoonBelow 0 0 2025 1 1 .yallop
        = { lat := 0, lon := 0, color := .red
            moonAlt := some (getMoonSunData providerMoonBelow 0 0 0).moonAlt
            sunAlt := some (getMoonSunData providerMoonBelow 0 0 0).sunAlt
            elongation := some (getMoonSunData providerMoonBelow 0 0 0).elongation
            odehZone := some .D, yallopClass := some .F } :=
  ⟨rfl, by norm_num [getMoonSunData, providerMoonBelow],
   calculateVisibilityPoint_moon_below_horizon providerMoonBelow 0 0 2025 1 1
     .yallop 0 rfl (by norm_num [getMoonSunData, providerMoonBelow])⟩

/-- A concrete Position Provider equal to `providerMoonBelow` except that
the moon stands at `+6` degrees at sunset. -/
noncomputable def providerMoonUp : PositionProvider :=
  { providerMoonBelow with moonHorizonAt := fun _ _ _ => ⟨6, 280⟩ }

/-- **C10** — `calculateVisibilityPoint` hard-codes an approximate moon age
of 20 hours for the SAAO evaluator; since `saaoCriterion` requires an age
of at least 24 hours for zone A, a point classified with the `saao`
criterion is never green, `saaoCriterion · 20` never yields zone A, and
the most favorable outcome — zone B, yellow — is attained. -/
theorem saao_point_never_green :
    (∀ (P : PositionProvider) (lat lon : ℝ) (year month day : ℤ),
        (calculateVisibilityPoint P lat lon year month day .saao).color ≠ Color.green)
      ∧ (∀ moonAlt : ℝ, (saaoCriterion moonAlt 20).zone ≠ OdehZone.A)
      ∧ saaoCriterion 6 20 = ⟨.B, .yellow⟩
      ∧ ∃ (P : PositionProvider) (lat lon : ℝ) (year month day : ℤ),
          (calculateVisibilityPoint P lat lon year month day .saao).color
            = Color.yellow := by
  refine ⟨?_, ?_, ?_, ?_⟩
  · intro P lat lon year month day
    unfold calculateVisibilityPoint
    cases hF : findSunset P lat lon year month day with
    | none => simp
    | some t =>
      dsimp only
      split_ifs with halt
      · simp
      · dsimp only
        unfold saaoCriterion
        split_ifs with h1 h2 h3
        · exact absurd h1.2 (by norm_num)
        · decide
        · decide
        · decide
  · intro moonAlt
    unfold saaoCriterion
    split_ifs with h1 h2 h3
    · exact absurd h1.2 (by norm_num)
    · decide
    · decide
    · decide
  · unfold saaoCriterion
    rw [if_neg (by norm_num), if_pos (by norm_num)]
  · refine ⟨providerMoonUp, 0, 0, 2025, 1, 1, ?_⟩
    unfold calculateVisibilityPoint
    rw [show findSunset providerMoonUp 0 0 2025 1 1 = some 0 from rfl]
    dsimp only
    rw [if_neg (by norm_num [getMoonSunData, providerMoonUp, providerMoonBelow])]
    dsimp only
    rw [show (getMoonSunData providerMoonUp 0 0 0).moonAlt = 6 from rfl]
    unfold saaoCriterion
    rw [if_neg (by norm_num), if_pos (by norm_num)]

/-! ## Grid generation (claims C5, C7) -/

/-- Values visited by the source loop `for (v = start; v <= bound; v += step)`
for a positive `step`: `start + k·step` while the value stays `≤ bound`,
that is for `k ≤ ⌊(bound - start)/step⌋`. -/
noncomputable def ascLoopLe (start bound step : ℝ) : List ℝ :=
  if start ≤ bound then
    (List.range (⌊(bound - start) / step⌋₊ + 1)).map fun k : ℕ => start + (k : ℝ) * step
  else []

/-- Values visited by the source loop `for (v = start; v < bound; v += step)`
for a positive `step`: `start + k·step` while the value stays `< bound`,
that is for `k < ⌈(bound - start)/step⌉`. -/
noncomputable def ascLoopLt (start bound step : ℝ) : List ℝ :=
  if start < bound then
    (List.range ⌈(bound - start) / step⌉₊).map fun k : ℕ => start + (k : ℝ) * step
  else []

/-- The options record of the source `generateVisibilityGrid`, with the
source's destructuring defaults.  The only further field of the source
record is the optional `onProgress` percentage callback — a pure
side-channel that does not influence the returned list; the record carries
no cancellation token of any kind. -/
structure GridOptions : Type where
  stepDeg : ℝ := 2
  maxLat : ℝ := 60
  criterion : Criterion := .odeh

/-- Source `generateVisibilityGrid(year, month, day, options)`: build the
latitude and longitude arrays with the two `for` loops, then compute one
`VisibilityPoint` per (lat, lon) pair in row-major order.  The source's
`if (point)` guard never filters anything (`calculateVisibilityPoint`
never returns `null`), and the loop body has no cancellation check — the
nested loops always run to completion. -/
noncomputable def generateVisibilityGrid (P : PositionProvider)
    (year month day : ℤ) (opts : GridOptions) : List VisibilityPoint :=
  let lats := ascLoopLe (-opts.maxLat) opts.maxLat opts.stepDeg
  let lons := ascLoopLt (-180) 180 opts.stepDeg
  lats.flatMap fun lat => lons.map fun lon =>
    calculateVisibilityPoint P lat lon year month day opts.criterion

lemma length_flatMap_const {α β : Type} (l : List α) (f : α → List β) (n : ℕ)
    (h : ∀ a ∈ l, (f a).length = n) : (l.flatMap f).length = l.length * n := by
  induction l with
  | nil => simp
  | cons a l ih =>
    rw [List.flatMap_cons, List.length_append, List.length_cons,
      h a (List.mem_cons_self a l),
      ih fun b hb => h b (List.mem_cons_of_mem a hb)]
    ring

lemma calculateVisibilityPoint_coords (P : PositionProvider)
    (lat lon : ℝ) (year month day : ℤ) (c : Criterion) :
    (calculateVisibilityPoint P lat lon year month day c).lat = lat
      ∧ (calculateVisibilityPoint P lat lon year month day c).lon = lon := by
  unfold calculateVisibilityPoint
  cases findSunset P lat lon year month day with
  | none => exact ⟨rfl, rfl⟩
  | some t =>
    dsimp only
    split_ifs <;> exact ⟨rfl, rfl⟩

lemma generateVisibilityGrid_length (P : PositionProvider)
    (year month day : ℤ) (opts : GridOptions) :
    (generateVisibilityGrid P year month day opts).length
      = (ascLoopLe (-opts.maxLat) opts.maxLat opts.stepDeg).length
        * (ascLoopLt (-180) 180 opts.stepDeg).length :=
  length_flatMap_const _ _ _ fun _ _ => List.length_map _ _

lemma generateVisibilityGrid_coords (P : PositionProvider)
    (year month day : ℤ) (opts : GridOptions) :
    (generateVisibilityGrid P year month day opts).map (fun p => (p.lat, p.lon))
      = (ascLoopLe (-opts.maxLat) opts.maxLat opts.stepDeg).flatMap
          fun la => (ascLoopLt (-180) 180 opts.stepDeg).map fun lo => (la, lo) := by
  unfold generateVisibilityGrid
  rw [List.map_flatMap]
  refine List.flatMap_congr fun la _ => ?_
  rw [List.map_map]
  refine List.map_congr_left fun lo _ => ?_
  have h := calculateVisibilityPoint_coords P la lo year month day opts.criterion
  simp [h.1, h.2]

lemma ascLoopLe_mem_bounds {start bound step x : ℝ} (hstep : 0 < step)
    (hx : x ∈ ascLoopLe start bound step) : start ≤ x ∧ x ≤ bound := by
  unfold ascLoopLe at hx
  split_ifs at hx with hsb
  · rcases List.mem_map.mp hx with ⟨k, hk, rfl⟩
    have hk' : k ≤ ⌊(bound - start) / step⌋₊ :=
      Nat.lt_succ_iff.mp (List.mem_range.mp hk)
    have hr : (0 : ℝ) ≤ (bound - start) / step :=
      div_nonneg (by linarith) hstep.le
    have h1 : (k : ℝ) ≤ (bound - start) / step :=
      le_trans (Nat.cast_le.mpr hk') (Nat.floor_le hr)
    have h2 : (k : ℝ) * step ≤ bound - start := (le_div_iff₀ hstep).mp h1
    have h3 : (0 : ℝ) ≤ (k : ℝ) * step :=
      mul_nonneg (Nat.cast_nonneg k) hstep.le
    constructor <;> linarith
  · cases hx

lemma ascLoopLt_mem_bounds {start bound step x : ℝ} (hstep : 0 < step)
    (hx : x ∈ ascLoopLt start bound step) : start ≤ x ∧ x < bound := by
  unfold ascLoopLt at hx
  split_ifs at hx with hsb
  · rcases List.mem_map.mp hx with ⟨k, hk, rfl⟩
    have h1 : (k : ℝ) < (bound - start) / step :=
      Nat.lt_ceil.mp (List.mem_range.mp hk)
    have h2 : (k : ℝ) * step < bound - start := (lt_div_iff₀ hstep).mp h1
    have h3 : (0 : ℝ) ≤ (k : ℝ) * step :=
      mul_nonneg (Nat.cast_nonneg k) hstep.le
    constructor <;> linarith
  · cases hx

lemma ascLoopLe_length_sixty : (ascLoopLe (-(60 : ℝ)) 60 2).length = 61 := by
  unfold ascLoopLe
  rw [if_pos (by norm_num)]
  rw [List.length_map, List.length_range]
  have h : ((60 : ℝ) - -60) / 2 = 60 := by norm_num
  rw [h]
  simp

lemma ascLoopLt_length_two : (ascLoopLt (-(180 : ℝ)) 180 2).length = 180 := by
  unfold ascLoopLt
  rw [if_pos (by norm_num)]
  rw [List.length_map, List.length_range]
  have h : ((180 : ℝ) - -180) / 2 = 180 := by norm_num
  rw [h]
  simp

/-- **C5** — `generateVisibilityGrid` yields exactly one point per lattice
cell, in row-major order over latitudes `-maxLat … maxLat` (inclusive,
step `stepDeg`) and longitudes `-180 … <180` (step `stepDeg`); every
point's coordinates respect those bounds; and at `stepDeg = 2`,
`maxLat = 60` the grid has exactly `61 * 180 = 10980` points. -/
theorem generateVisibilityGrid_one_point_per_cell (P : PositionProvider)
    (year month day : ℤ) (opts : GridOptions) (hstep : 0 < opts.stepDeg) :
    (generateVisibilityGrid P year month day opts).map (fun p => (p.lat, p.lon))
        = (ascLoopLe (-opts.maxLat) opts.maxLat opts.stepDeg).flatMap
            (fun la => (ascLoopLt (-180) 180 opts.stepDeg).map fun lo => (la, lo))
      ∧ (∀ p ∈ generateVisibilityGrid P year month day opts,
          -opts.maxLat ≤ p.lat ∧ p.lat ≤ opts.maxLat
            ∧ -180 ≤ p.lon ∧ p.lon < 180)
      ∧ (opts.stepDeg = 2 → opts.maxLat = 60 →
          (generateVisibilityGrid P year month day opts).length = 10980) := by
  refine ⟨generateVisibilityGrid_coords P year month day opts, ?_, ?_⟩
  · intro p hp
    unfold generateVisibilityGrid at hp
    rcases List.mem_flatMap.mp hp with ⟨la, hla, hp'⟩
    rcases List.mem_map.mp hp' with ⟨lo, hlo, rfl⟩
    have hc := calculateVisibilityPoint_coords P la lo year month day opts.criterion
    rw [hc.1, hc.2]
    have h1 := ascLoopLe_mem_bounds hstep hla
    have h2 := ascLoopLt_mem_bounds hstep hlo
    exact ⟨h1.1, h1.2, h2.1, h2.2⟩
  · intro h2 h60
    rw [generateVisibilityGrid_length, h2, h60,
      ascLoopLe_length_sixty, ascLoopLt_length_two]

/-- Witness for C5 with `providerMoonUp` at 2025-01-01, `stepDeg = 2`,
`maxLat = 60`. -/
theorem generateVisibilityGrid_one_point_per_cell_witness :
    (0 : ℝ) < 2
      ∧ (generateVisibilityGrid providerMoonUp 2025 1 1
          ⟨2, 60, .odeh⟩).length = 10980 :=
  ⟨by norm_num,
   (generateVisibilityGrid_one_point_per_cell providerMoonUp 2025 1 1
      ⟨2, 60, .odeh⟩ (by norm_num)).2.2 rfl rfl⟩

/-- Counterexample for C7 — `generateVisibilityGrid` has no cancellation
input at all (its options are exactly `stepDeg`, `maxLat`, `criterion` and
a progress callback): a run over the default lattice necessarily returns
the complete 10980-point list, so no invocation can ever terminate with
"no result object". -/
theorem generateVisibilityGrid_cancellation_counterexample :
    (generateVisibilityGrid providerMoonBelow 2025 3 1
        { stepDeg := 2, maxLat := 60, criterion := .odeh }).length = 10980 := by
  rw [generateVisibilityGrid_length]
  dsimp only
  rw [ascLoopLe_length_sixty, ascLoopLt_length_two]

/-- **C7 amended** — `generateVisibilityGrid` accepts no cancellation
token: every invocation visits every lattice cell and returns the complete
list, one `VisibilityPoint` per cell, never a truncated one.  (The
cancellation found in the repository lives in a frontend caller that
aborts or ignores an HTTP fetch; the grid function itself cannot be
interrupted.) -/
theorem generateVisibilityGrid_runs_to_completion (P : PositionProvider)
    (year month day : ℤ) (opts : GridOptions) :
    (generateVisibilityGrid P year month day opts).length
        = (ascLoopLe (-opts.maxLat) opts.maxLat opts.stepDeg).length
          * (ascLoopLt (-180) 180 opts.stepDeg).length
      ∧ (generateVisibilityGrid P year month day opts).map (fun p => (p.lat, p.lon))
        = (ascLoopLe (-opts.maxLat) opts.maxLat opts.stepDeg).flatMap
            (fun la => (ascLoopLt (-180) 180 opts.stepDeg).map fun lo => (la, lo)) :=
  ⟨generateVisibilityGrid_length P year month day opts,
   generateVisibilityGrid_coords P year month day opts⟩

/-! ## Simulation trajectory (claim C9)

The repository carries two builds of the astronomy module; their
`getSimulationTrajectory` bodies are identical except for the loop bound:
`for (let i = 0; i <= 150; i += 2)` in the primary build and
`for (let i = 0; i <= 75; i += 2)` in the other. -/

/-- The source interface `SimulationPoint` (the loop counter
`timeOffsetMin` is a whole number of minutes). -/
structure SimulationPoint : Type where
  timeOffsetMin : ℕ
  sunAlt : ℝ
  sunAz : ℝ
  moonAlt : ℝ
  moonAz : ℝ
  illumination : ℝ
  elongation : ℝ
  tilt : ℝ
  moonAge : Option ℝ := none

/-- JavaScript `Math.atan2(y, x)` over the reals (signed zeros collapse
onto the single real `0`). -/
noncomputable def atan2 (y x : ℝ) : ℝ :=
  if 0 < x then Real.arctan (y / x)
  else if x < 0 then
    if 0 ≤ y then Real.arctan (y / x) + Real.pi
    else Real.arctan (y / x) - Real.pi
  else
    if 0 < y then Real.pi / 2
    else if y < 0 then -(Real.pi / 2)
    else 0

/-- One iteration of the `getSimulationTrajectory` loop body: query both
horizontal positions, illumination and elongation at the frame instant,
derive the bright-limb tilt
`90 - atan2(Δalt, Δaz · cos(moonAlt·DEG2RAD)) · RAD2DEG`,
and record the loop counter `i` as `timeOffsetMin`. -/
noncomputable def simFrame (P : PositionProvider)
    (lat lon : ℝ) (i : ℕ) (t : Instant) : SimulationPoint :=
  let sunHorizon := P.sunHorizonAt lat lon t
  let moonHorizon := P.moonHorizonAt lat lon t
  let dy := sunHorizon.altitude - moonHorizon.altitude
  let dx := (sunHorizon.azimuth - moonHorizon.azimuth)
    * Real.cos (moonHorizon.altitude * DEG2RAD)
  let tiltFromRight := atan2 dy dx * RAD2DEG
  { timeOffsetMin := i
    sunAlt := sunHorizon.altitude
    sunAz := sunHorizon.azimuth
    moonAlt := moonHorizon.altitude
    moonAz := moonHorizon.azimuth
    illumination := P.illuminationAt t
    elongation := P.elongationAt t
    tilt := 90 - tiltFromRight }

/-- The loop counters of `for (let i = 0; i <= durationMin; i += 2)`:
`0, 2, …` up to the largest even number `≤ durationMin`. -/
def trajOffsets (durationMin : ℕ) : List ℕ :=
  (List.range (durationMin / 2 + 1)).map fun k => 2 * k

/-- Source `getSimulationTrajectory(lat, lon, year, month, day)` of the
primary build (loop bound 150): `null` when no sunset exists, otherwise
the sunset instant (serialized as an ISO string in the source) and one
frame per loop counter `i`, at instant `sunset + i·60000` ms. -/
noncomputable def getSimulationTrajectory (P : PositionProvider)
    (lat lon : ℝ) (year month day : ℤ) :
    Option (Instant × List SimulationPoint) :=
  match findSunset P lat lon year month day with
  | none => none
  | some sunset =>
    some (sunset,
      (trajOffsets 150).map fun i => simFrame P lat lon i (sunset + (i : ℚ) * 60000))

/-- The other build's `getSimulationTrajectory`, identical except that the
loop is `for (let i = 0; i <= 75; i += 2)` under the comment "Generate 75
minutes of data (every 2 minutes)". -/
noncomputable def getSimulationTrajectory75 (P : PositionProvider)
    (lat lon : ℝ) (year month day : ℤ) :
    Option (Instant × List SimulationPoint) :=
  match findSunset P lat lon year month day with
  | none => none
  | some sunset =>
    some (sunset,
      (trajOffsets 75).map fun i => simFrame P lat lon i (sunset + (i : ℚ) * 60000))

lemma simFrame_timeOffsetMin (P : PositionProvider)
    (lat lon : ℝ) (i : ℕ) (t : Instant) :
    (simFrame P lat lon i t).timeOffsetMin = i := rfl

lemma trajOffsets_head (d : ℕ) : (trajOffsets d).head? = some 0 := by
  unfold trajOffsets
  rw [List.range_succ_eq_map]
  rfl

lemma trajOffsets_getLast (d : ℕ) :
    (trajOffsets d).getLast? = some (2 * (d / 2)) := by
  unfold trajOffsets
  rw [List.range_succ, List.map_append]
  exact List.getLast?_concat _

lemma trajOffsets_chain (d : ℕ) :
    List.Chain' (fun a b => b = a + 2) (trajOffsets d) := by
  unfold trajOffsets
  rw [List.chain'_map, List.chain'_range_succ]
  intro m _
  omega

/-- Counterexample for C9 — in the 75-minute build the configured total
duration is 75 minutes, but the loop `i <= 75` stepping by 2 stops at
offset 74, so the frames do not span the configured duration exactly. -/
theorem getSimulationTrajectory75_span_counterexample :
    (getSimulationTrajectory75 providerMoonUp 0 0 2025 1 1).map
        (fun r => (r.2.map SimulationPoint.timeOffsetMin).getLast?)
      = some (some 74)
      ∧ (74 : ℕ) ≠ 75 := by
  constructor
  · rfl
  · decide

/-- **C9 amended** — whenever the primary `getSimulationTrajectory`
succeeds, the frame offsets are exactly `0, 2, 4, …` up to the greatest
multiple of the 2-minute step not exceeding the configured bound — here
`150`, a multiple of the step, so the offsets start at 0, rise in constant
steps of 2 with no gaps or duplicates, and end exactly at 150.  (In the
75-minute build the same loop ends at 74, one step short of its bound.) -/
theorem getSimulationTrajectory_offsets (P : PositionProvider)
    (lat lon : ℝ) (year month day : ℤ) (s : Instant)
    (fs : List SimulationPoint)
    (h : getSimulationTrajectory P lat lon year month day = some (s, fs)) :
    fs.map SimulationPoint.timeOffsetMin = trajOffsets 150
      ∧ (fs.map SimulationPoint.timeOffsetMin).head? = some 0
      ∧ (fs.map SimulationPoint.timeOffsetMin).getLast? = some 150
      ∧ List.Chain' (fun a b => b = a + 2)
          (fs.map SimulationPoint.timeOffsetMin) := by
  have hfs : fs.map SimulationPoint.timeOffsetMin = trajOffsets 150 := by
    unfold getSimulationTrajectory at h
    cases hF : findSunset P lat lon year month day with
    | none => rw [hF] at h; cases h
    | some sunset =>
      rw [hF] at h
      dsimp only at h
      injection h with h'
      injection h' with h1 h2
      rw [← h2, List.map_map]
      exact List.map_id _
  refine ⟨hfs, ?_, ?_, ?_⟩ <;> rw [hfs]
  · exact trajOffsets_head 150
  · exact trajOffsets_getLast 150
  · exact trajOffsets_chain 150

/-- The frame list the primary trajectory produces for `providerMoonUp`
at `(0, 0)`, 2025-01-01 (sunset instant `0`). -/
noncomputable def sampleFrames : List SimulationPoint :=
  (trajOffsets 150).map fun i => simFrame providerMoonUp 0 0 i ((0 : ℚ) + (i : ℚ) * 60000)

/-- Witness for the amended C9 with `providerMoonUp`. -/
theorem getSimulationTrajectory_offsets_witness :
    getSimulationTrajectory providerMoonUp 0 0 2025 1 1 = some (0, sampleFrames)
      ∧ (sampleFrames.map SimulationPoint.timeOffsetMin).getLast? = some 150 :=
  ⟨rfl,
   (getSimulationTrajectory_offsets providerMoonUp 0 0 2025 1 1 0
      sampleFrames rfl).2.2.1⟩

/-! ## Conjunction resolver (claim C6) -/

/-- The source union type `ConjunctionType = 'geocentric' | 'topocentric'`. -/
inductive ConjunctionType : Type
  | geocentric | topocentric
  deriving DecidableEq, Repr

/-- The source interface `ConjunctionResult { time; type; moonPhase }`:
an instant, the reference-frame tag, and the moon phase angle there.
These three fields are all a `ConjunctionResult` carries — there is no
field recording whether the value arose from a fallback. -/
structure ConjunctionResult : Type where
  time : Instant
  type : ConjunctionType
  moonPhase : ℝ

/-- Source `findGeocentricConjunction(startDate, limitDays = 35)`:
`SearchMoonPhase(0, startTime, limitDays)`, then tag the found instant
`geocentric` together with `MoonPhase` evaluated there; `null` when the
search finds nothing.  (The `try/catch` wrapper is dead in the embedded
fragment.) -/
noncomputable def findGeocentricConjunction (P : PositionProvider)
    (startDate : Instant) (limitDays : ℚ) : Option ConjunctionResult :=
  match P.searchMoonPhase 0 startDate limitDays with
  | none => none
  | some conjunction =>
    some { time := conjunction, type := .geocentric
           moonPhase := P.moonPhaseAt conjunction }

/-- Source `findTopocentricConjunction(lat, lon, startDate, limitDays = 35)`:
find the geocentric conjunction, then run `Astronomy.Search` on the
topocentric Sun–Moon ecliptic-longitude difference over the window from 12
hours before the geocentric instant to one day later.  When the search
finds no root, the geocentric instant and phase are returned — tagged
`'topocentric'`, exactly like a successful search result. -/
noncomputable def findTopocentricConjunction (P : PositionProvider)
    (lat lon : ℝ) (startDate : Instant) (limitDays : ℚ) :
    Option ConjunctionResult :=
  match findGeocentricConjunction P startDate limitDays with
  | none => none
  | some geocentric =>
    let searchStart := geocentric.time - 12 * 60 * 60 * 1000
    let t1 := searchStart
    let t2 := t1 + 24 * 60 * 60 * 1000
    match P.searchLongitudeDiffZero lat lon t1 t2 with
    | none =>
      some { time := geocentric.time, type := .topocentric
             moonPhase := geocentric.moonPhase }
    | some conjunction =>
      some { time := conjunction, type := .topocentric
             moonPhase := P.moonPhaseAt conjunction }

/-- A concrete provider identical to `providerMoonBelow` (whose
topocentric root search finds nothing) except that the root search
succeeds, at the very instant of the geocentric conjunction. -/
noncomputable def providerTopoRootAtGeo : PositionProvider :=
  { providerMoonBelow with searchLongitudeDiffZero := fun _ _ _ _ => some 0 }

/-- Counterexample for C6 — the fallback result is not distinguishable
from a successful topocentric solution: a run whose bracket search finds
no root (`providerMoonBelow`) returns a `ConjunctionResult` identical,
field for field, to the one of a run whose search succeeds
(`providerTopoRootAtGeo`), and its `type` tag is the ordinary
`topocentric`, not a fallback marker. -/
theorem findTopocentricConjunction_no_fallback_flag_counterexample :
    findTopocentricConjunction providerMoonBelow 0 0 0 35
        = findTopocentricConjunction providerTopoRootAtGeo 0 0 0 35
      ∧ (findTopocentricConjunction providerMoonBelow 0 0 0 35).map
            ConjunctionResult.type
        = some .topocentric
      ∧ providerMoonBelow.searchLongitudeDiffZero 0 0
          ((0 : ℚ) - 12 * 60 * 60 * 1000)
          ((0 : ℚ) - 12 * 60 * 60 * 1000 + 24 * 60 * 60 * 1000) = none
      ∧ providerTopoRootAtGeo.searchLongitudeDiffZero 0 0
          ((0 : ℚ) - 12 * 60 * 60 * 1000)
          ((0 : ℚ) - 12 * 60 * 60 * 1000 + 24 * 60 * 60 * 1000) = some 0 :=
  ⟨rfl, rfl, rfl, rfl⟩

/-- **C6 amended** — when the bracket search finds no root,
`findTopocentricConjunction` degrades gracefully: it returns the
geocentric conjunction instant (with the geocentric phase value) instead
of failing — but tagged `type := 'topocentric'` like any successful
search, with no flag: callers cannot tell the fallback from a genuine
topocentric solution. -/
theorem findTopocentricConjunction_fallback_returns_geocentric
    (P : PositionProvider) (lat lon : ℝ) (startDate : Instant)
    (limitDays : ℚ) (geo : ConjunctionResult)
    (hgeo : findGeocentricConjunction P startDate limitDays = some geo)
    (hnone : P.searchLongitudeDiffZero lat lon
        (geo.time - 12 * 60 * 60 * 1000)
        (geo.time - 12 * 60 * 60 * 1000 + 24 * 60 * 60 * 1000) = none) :
    findTopocentricConjunction P lat lon startDate limitDays
      = some { time := geo.time, type := .topocentric
               moonPhase := geo.moonPhase } := by
  unfold findTopocentricConjunction
  rw [hgeo]
  dsimp only
  rw [hnone]

/-- Witness for the amended C6 with `providerMoonBelow` (geocentric
conjunction at instant 0, phase 0; no topocentric root). -/
theorem findTopocentricConjunction_fallback_returns_geocentric_witness :
    findGeocentricConjunction providerMoonBelow 0 35
        = some { time := 0, type := .geocentric, moonPhase := 0 }
      ∧ findTopocentricConjunction providerMoonBelow 0 0 0 35
        = some { time := 0, type := .topocentric, moonPhase := 0 } :=
  ⟨rfl,
   findTopocentricConjunction_fallback_returns_geocentric providerMoonBelow
     0 0 0 35 { time := 0, type := .geocentric, moonPhase := 0 } rfl rfl⟩

end CrescentWatch
